import Mathlib

/-!
# Deployment glue of the BulletproofNFT repository

A shallow embedding of the two JavaScript files of the repository:

* `truffle-config.js`: the configuration module (its top-level statements
  and its `module.exports` object literal);
* `migrations/1_smart_contract_migration.js`: the migration module (its
  top-level statements and the exported `async function (deployer)`).

JavaScript values are a small inductive type, the process environment is a
lookup function, and every call that leaves the module (dotenv, `process.env`,
`require`, `new HDWalletProvider`, `deployer.deploy`, `.deployed()`) is logged
in an explicit trace that is threaded through the evaluation.
-/

namespace Bulletproof

/-! ## JavaScript values -/

/-- JavaScript values that occur in the two modules.  `arrowNew ps c as` is the
arrow function `(ps) => new c(as)` whose captured `const` bindings have the
values `as`; `created c as` is the object made by evaluating `new c(as)`. -/
inductive JSValue where
  | undefined
  | bool (b : Bool)
  | num (n : Int)
  | str (s : String)
  | obj (props : List (String × JSValue))
  | arrowNew (params : List String) (ctor : String) (args : List JSValue)
  | created (ctor : String) (args : List JSValue)

namespace JSValue

/-- Own property names of an object literal, in source order. -/
def keys : JSValue → List String
  | obj props => props.map Prod.fst
  | _ => []

/-- Whether the value is an object that has the own property `k`. -/
def hasKey (v : JSValue) (k : String) : Bool :=
  v.keys.contains k

/-- Property read `v[k]`: the value stored under `k`, and `undefined` when the
property is missing.  No object literal of the two modules repeats a key. -/
def get (v : JSValue) (k : String) : JSValue :=
  match v with
  | obj props => (props.lookup k).getD undefined
  | _ => undefined

/-- Whether the value is an object literal (a record). -/
def isObject : JSValue → Bool
  | obj _ => true
  | _ => false

/-- Whether the value is a function, as `typeof v === "function"`. -/
def isFunction : JSValue → Bool
  | arrowNew _ _ _ => true
  | _ => false

/-- Number of declared parameters of a function value, as `v.length`. -/
def arity : JSValue → Option Nat
  | arrowNew params _ _ => some params.length
  | _ => none

/-- Values stored in an object literal, in source order. -/
def values : JSValue → List JSValue
  | obj props => props.map Prod.snd
  | _ => []

/-- Whether an entry specifies connection parameters: a host and a port, or a
wallet provider bound to an RPC endpoint. -/
def specifiesConnection (v : JSValue) : Bool :=
  (v.hasKey "host" && v.hasKey "port") || v.hasKey "provider"

end JSValue

/-! ## Process state and effects -/

/-- The process environment `process.env`: a variable is a string or absent. -/
abbrev Env := String → Option String

/-- Calls that leave a module while it is evaluated. -/
inductive Effect where
  | requireModule (name : String)
  | dotenvConfig
  | envRead (name : String)
  | artifactsRequire (name : String)
  | construct (ctor : String) (args : List JSValue)

namespace Effect

/-- Reads of an environment variable: `process.env[k]`. -/
def isEnvRead : Effect → Bool
  | envRead _ => true
  | _ => false

/-- Object constructions: `new C(...)`. -/
def isConstruct : Effect → Bool
  | construct _ _ => true
  | _ => false

end Effect

/-- State of the node process while a module is evaluated: the environment and
the trace of the calls made so far. -/
structure Proc where
  env : Env
  log : List Effect

/-- A fresh process with environment `env`. -/
def Proc.start (env : Env) : Proc := ⟨env, []⟩

/-- The expression `require(name)`: a module import. -/
def requireModule (name : String) (p : Proc) : Proc :=
  ⟨p.env, p.log ++ [Effect.requireModule name]⟩

/-- The statement `require("dotenv").config()`.  The dotenv library is not part
of the repository: what it does to the environment is the parameter `dotenv`. -/
def dotenvConfig (dotenv : Env → Env) (p : Proc) : Proc :=
  let p := requireModule "dotenv" p
  ⟨dotenv p.env, p.log ++ [Effect.dotenvConfig]⟩

/-- The raw result of looking a variable up in an environment. -/
def envLookup (env : Env) (k : String) : JSValue :=
  match env k with
  | some s => JSValue.str s
  | none => JSValue.undefined

/-- The expression `process.env[k]`. -/
def processEnv (k : String) (p : Proc) : JSValue × Proc :=
  (envLookup p.env k, ⟨p.env, p.log ++ [Effect.envRead k]⟩)

/-- Behaviour of the constructors of external libraries, which are not part of
the repository: `none` when `new c(as)` returns the new object, `some e` when it
throws `e`. -/
abbrev Constructors := String → List JSValue → Option JSValue

/-- The outcome of the expression `new c(as)`: the new object, or the thrown
value. -/
def newObject (ctors : Constructors) (c : String) (as : List JSValue) :
    Except JSValue JSValue :=
  match ctors c as with
  | some e => Except.error e
  | none => Except.ok (JSValue.created c as)

/-- Calling a function value with arguments.  The only function values are the
arrow functions `(ps) => new c(as)`: the call evaluates `new c(as)`, which
invokes the constructor and either returns the new object or throws.  Calling
anything else is a TypeError (`none`). -/
def callFunction (ctors : Constructors) (f : JSValue) (_args : List JSValue) (p : Proc) :
    Option (Except JSValue JSValue × Proc) :=
  match f with
  | JSValue.arrowNew _ ctor cargs =>
    some (newObject ctors ctor cargs, ⟨p.env, p.log ++ [Effect.construct ctor cargs]⟩)
  | _ => none

/-! ## truffle-config.js -/

/-- The module `truffle-config.js`: its top-level statements, in order, and the
object literal assigned to `module.exports`. -/
def truffleConfig (dotenv : Env → Env) (p : Proc) : JSValue × Proc :=
  let p := dotenvConfig dotenv p
  let (metamask_mnemonic, p) := processEnv "METAMASK_MNENONIC" p
  let (deployWalletAddress, p) := processEnv "DEPLOY_WALLET_ADDRESS" p
  let (deployWalletAddressIndex, p) := processEnv "DEPLOY_WALLET_ADDRESS_INDEX" p
  let p := requireModule "@truffle/hdwallet-provider" p
  (JSValue.obj [
    ("networks", JSValue.obj [
      ("development", JSValue.obj [
        ("host", JSValue.str "127.0.0.1"),
        ("port", JSValue.num 8545),
        ("network_id", JSValue.str "1337"),
        ("timeoutBlocks", JSValue.num 200),
        ("skipDryRun", JSValue.bool true),
        ("gas", JSValue.num 5500000),
        ("networkCheckTimeoutnetworkCheckTimeout", JSValue.num 10000)]),
      ("fantom", JSValue.obj [
        ("provider", JSValue.arrowNew [] "HDWalletProvider" [
          metamask_mnemonic,
          JSValue.str "https://rpc.ankr.com/fantom_testnet",
          JSValue.num 0,
          deployWalletAddressIndex]),
        ("from", deployWalletAddress),
        ("network_id", JSValue.num 4002),
        ("confirmations", JSValue.num 2),
        ("timeoutBlocks", JSValue.num 200),
        ("skipDryRun", JSValue.bool true)]),
      ("on", JSValue.bool true)]),
    ("mocha", JSValue.obj []),
    ("contracts_build_directory", JSValue.str "./build/contracts/"),
    ("compilers", JSValue.obj [
      ("solc", JSValue.obj [
        ("version", JSValue.str "0.8.16"),
        ("settings", JSValue.obj [
          ("optimizer", JSValue.obj [
            ("enabled", JSValue.bool true),
            ("runs", JSValue.num 200)])])])]),
    ("db", JSValue.obj [
      ("enabled", JSValue.bool false)])],
   p)

/-- The configuration resolved in a fresh process: `module.exports`. -/
def resolvedConfig (dotenv : Env → Env) (env : Env) : JSValue :=
  (truffleConfig dotenv (Proc.start env)).1

/-- The trace of the calls made while the configuration is resolved. -/
def resolveTrace (dotenv : Env → Env) (env : Env) : List Effect :=
  (truffleConfig dotenv (Proc.start env)).2.log

/-- The `networks` mapping of the resolved configuration. -/
def networks (dotenv : Env → Env) (env : Env) : JSValue :=
  (resolvedConfig dotenv env).get "networks"

/-- The environment in which no variable is set. -/
def emptyEnv : Env := fun _ => none

/-- An environment in which the three variables of the repository are set. -/
def sampleEnv : Env := fun k =>
  if k = "METAMASK_MNENONIC" then some "test test test test test test test test test test test junk"
  else if k = "DEPLOY_WALLET_ADDRESS" then some "0xabc"
  else if k = "DEPLOY_WALLET_ADDRESS_INDEX" then some "3"
  else none

/-- One behaviour of dotenv: the variables of a `.env` file are written into the
environment, except those that are already set. -/
def dotenvFile (file : List (String × String)) : Env → Env := fun env k =>
  match env k with
  | some v => some v
  | none => file.lookup k

/-- Modelled from the spec: the wallet-provider constructor, which is not part
of the repository.  Per "fails (configuration error) if a required variable is
absent only at the point of use", `new HDWalletProvider(m, ...)` throws when the
mnemonic `m` is `undefined` and returns the new provider otherwise. -/
def walletProviderCtor : Constructors := fun _ as =>
  match as with
  | JSValue.undefined :: _ => some (JSValue.str "configuration error: mnemonic missing")
  | _ => none

/-- The process environment after the configuration module has been resolved. -/
def resolvedEnv (dotenv : Env → Env) (env : Env) : Env :=
  (truffleConfig dotenv (Proc.start env)).2.env

/-! ## migrations/1_smart_contract_migration.js -/

/-- A contract artifact reference, as returned by `artifacts.require(name)`. -/
structure Artifact where
  contractName : String

/-- The external deployment framework, over its own state `σ` (the chain, the
network, the build directory): the operation `deployer.deploy(artifact, options)`
of the injected deployer and the operation `artifact.deployed()`.  Each one
either resolves with a value or fails with a thrown value, and may change the
framework state either way. -/
structure Framework (σ : Type) where
  deploy : Artifact → JSValue → σ → Except JSValue JSValue × σ
  deployed : Artifact → σ → Except JSValue JSValue × σ

/-- Calls made to the framework by the migration function. -/
inductive Call where
  | deploy (artifact : Artifact) (options : JSValue)
  | deployed (artifact : Artifact)

namespace Call

/-- Whether the call is a `deployer.deploy(...)`. -/
def isDeploy : Call → Bool
  | deploy _ _ => true
  | deployed _ => false

/-- Whether the call is a `.deployed()`. -/
def isDeployed : Call → Bool
  | deploy _ _ => false
  | deployed _ => true

/-- The options argument of a `deployer.deploy(...)` call. -/
def options : Call → Option JSValue
  | deploy _ o => some o
  | deployed _ => none

end Call

/-- State of a migration run: the framework state and the calls made so far. -/
structure Run (σ : Type) where
  world : σ
  calls : List Call

/-- A migration run that starts in framework state `w` with no call made. -/
def Run.start {σ : Type} (w : σ) : Run σ := ⟨w, []⟩

/-- The expression `artifacts.require(name)`. -/
def artifactsRequire (name : String) (p : Proc) : Artifact × Proc :=
  (⟨name⟩, ⟨p.env, p.log ++ [Effect.artifactsRequire name]⟩)

/-- The call `deployer.deploy(artifact, options)`, logged. -/
def callDeploy {σ : Type} (fw : Framework σ) (artifact : Artifact) (options : JSValue)
    (r : Run σ) : Except JSValue JSValue × Run σ :=
  let res := fw.deploy artifact options r.world
  (res.1, ⟨res.2, r.calls ++ [Call.deploy artifact options]⟩)

/-- The call `artifact.deployed()`, logged. -/
def callDeployed {σ : Type} (fw : Framework σ) (artifact : Artifact)
    (r : Run σ) : Except JSValue JSValue × Run σ :=
  let res := fw.deployed artifact r.world
  (res.1, ⟨res.2, r.calls ++ [Call.deployed artifact]⟩)

/-- The function exported by the migration module, as a closure: the two
module-level `const` bindings its body refers to. -/
structure MigrationFn where
  BulletproofMultiNFTGenesis : Artifact
  deployWalletAddress : JSValue

/-- The module `1_smart_contract_migration.js`: its top-level statements, in
order, and the function assigned to `module.exports`. -/
def migrationModule (dotenv : Env → Env) (p : Proc) : MigrationFn × Proc :=
  let (BulletproofMultiNFTGenesis, p) := artifactsRequire "BulletproofMultiNFTGenesis" p
  let p := dotenvConfig dotenv p
  let (deployWalletAddress, p) := processEnv "DEPLOY_WALLET_ADDRESS" p
  (⟨BulletproofMultiNFTGenesis, deployWalletAddress⟩, p)

/-- The body of the exported `async function (deployer)`.  Each `await` either
continues with the resolved value or rejects the function with the thrown
value; a run to the end resolves with `undefined`. -/
def MigrationFn.run {σ : Type} (m : MigrationFn) (fw : Framework σ) (r : Run σ) :
    Except JSValue JSValue × Run σ :=
  let d := callDeploy fw m.BulletproofMultiNFTGenesis
    (JSValue.obj [("from", m.deployWalletAddress)]) r
  match d.1 with
  | Except.error e => (Except.error e, d.2)
  | Except.ok _ =>
    let i := callDeployed fw m.BulletproofMultiNFTGenesis d.2
    match i.1 with
    | Except.error e => (Except.error e, i.2)
    | Except.ok _instance => (Except.ok JSValue.undefined, i.2)

/-- Load the migration module in a fresh process with environment `env` and
run the exported function once against the framework `fw` in state `w`. -/
def migrate {σ : Type} (dotenv : Env → Env) (env : Env) (fw : Framework σ) (w : σ) :
    Except JSValue JSValue × Run σ :=
  (migrationModule dotenv (Proc.start env)).1.run fw (Run.start w)

/-- The contract artifact the migration deploys. -/
def genesis : Artifact := ⟨"BulletproofMultiNFTGenesis"⟩

/-- The options object the migration passes to `deployer.deploy`, for the
process environment `env` as it stands when the variable is read. -/
def deployOptions (env : Env) : JSValue :=
  JSValue.obj [("from", envLookup env "DEPLOY_WALLET_ADDRESS")]

/-- The framework state after the `deploy` call of a migration run. -/
def afterDeploy {σ : Type} (dotenv : Env → Env) (env : Env) (fw : Framework σ) (w : σ) : σ :=
  (fw.deploy genesis (deployOptions (dotenv env)) w).2

/-- A framework over a counter in which both operations succeed. -/
def okFramework : Framework Nat where
  deploy := fun _ _ n => (Except.ok JSValue.undefined, n + 1)
  deployed := fun _ n => (Except.ok (JSValue.obj []), n)

/-- A framework over a counter whose `deploy` fails with the thrown value `e`. -/
def deployFails (e : JSValue) : Framework Nat where
  deploy := fun _ _ n => (Except.error e, n + 1)
  deployed := fun _ n => (Except.ok (JSValue.obj []), n)

/-- A framework over a counter whose `deployed` fails with the thrown value `e`. -/
def deployedFails (e : JSValue) : Framework Nat where
  deploy := fun _ _ n => (Except.ok JSValue.undefined, n + 1)
  deployed := fun _ n => (Except.error e, n)

/-- Property names under which compiler settings are written. -/
def compilerKeys : List String :=
  ["compilers", "solc", "version", "settings", "optimizer"]

/-- The `from` options passed to `deployer.deploy`, one per deploy call. -/
def passedFrom (calls : List Call) : List JSValue :=
  calls.filterMap fun c => c.options.map fun o => o.get "from"

/-- The `provider` field of the `fantom` entry of the resolved configuration. -/
def fantomProvider (dotenv : Env → Env) (env : Env) : JSValue :=
  ((networks dotenv env).get "fantom").get "provider"

/-! ## Configuration: network profiles -/

/-- C2: for every environment (and every behaviour of dotenv), the `fantom`
entry of the resolved configuration has `network_id` equal to the number 4002
and `confirmations` equal to the number 2. -/
theorem fantom_network_id_confirmations (dotenv : Env → Env) (env : Env) :
    ((networks dotenv env).get "fantom").get "network_id" = JSValue.num 4002 ∧
    ((networks dotenv env).get "fantom").get "confirmations" = JSValue.num 2 := by
  constructor <;> rfl

/-- C3: the `development` entry of the resolved configuration is the same under
any two environments (and any two behaviours of dotenv), and it has host
"127.0.0.1", port the number 8545 and network_id the string "1337". -/
theorem development_env_independent (d1 d2 : Env → Env) (e1 e2 : Env) :
    (networks d1 e1).get "development" = (networks d2 e2).get "development" ∧
    ((networks d1 e1).get "development").get "host" = JSValue.str "127.0.0.1" ∧
    ((networks d1 e1).get "development").get "port" = JSValue.num 8545 ∧
    ((networks d1 e1).get "development").get "network_id" = JSValue.str "1337" := by
  refine ⟨rfl, rfl, rfl, rfl⟩

/-! ## Migration: the three ways a run can go -/

/-- Unfolding of a migration run into the two framework operations. -/
theorem migrate_eq {σ : Type} (dotenv : Env → Env) (env : Env) (fw : Framework σ) (w : σ) :
    migrate dotenv env fw w =
      match (fw.deploy genesis (deployOptions (dotenv env)) w).1 with
      | Except.error e =>
        (Except.error e, ⟨afterDeploy dotenv env fw w,
          [Call.deploy genesis (deployOptions (dotenv env))]⟩)
      | Except.ok _ =>
        match (fw.deployed genesis (afterDeploy dotenv env fw w)).1 with
        | Except.error e =>
          (Except.error e, ⟨(fw.deployed genesis (afterDeploy dotenv env fw w)).2,
            [Call.deploy genesis (deployOptions (dotenv env)), Call.deployed genesis]⟩)
        | Except.ok _ =>
          (Except.ok JSValue.undefined, ⟨(fw.deployed genesis (afterDeploy dotenv env fw w)).2,
            [Call.deploy genesis (deployOptions (dotenv env)), Call.deployed genesis]⟩) := by
  rfl

/-- A run whose `deploy` succeeds makes the two calls, whatever `deployed` does. -/
theorem migrate_calls_of_deploy_ok {σ : Type} (dotenv : Env → Env) (env : Env)
    (fw : Framework σ) (w : σ) (v : JSValue)
    (hv : (fw.deploy genesis (deployOptions (dotenv env)) w).1 = Except.ok v) :
    (migrate dotenv env fw w).2.calls =
      [Call.deploy genesis (deployOptions (dotenv env)), Call.deployed genesis] := by
  rw [migrate_eq]
  simp only [hv]
  cases (fw.deployed genesis (afterDeploy dotenv env fw w)).1 <;> rfl

/-! ## Migration: call trace -/

/-- C1: for every environment and every deployer whose deploy operation
succeeds, running the migration function makes exactly the calls
deploy(BulletproofMultiNFTGenesis, options) and then
BulletproofMultiNFTGenesis.deployed(), where the options object has the single
key `from`, whose value is the one read from the environment variable
DEPLOY_WALLET_ADDRESS: one deploy call, then one fetch of the deployed
instance. -/
theorem migration_call_trace {σ : Type} (dotenv : Env → Env) (env : Env)
    (fw : Framework σ) (w : σ)
    (hdeploy : ∃ v, (fw.deploy genesis (deployOptions (dotenv env)) w).1 = Except.ok v) :
    (migrate dotenv env fw w).2.calls =
      [Call.deploy genesis
          (JSValue.obj [("from", envLookup (dotenv env) "DEPLOY_WALLET_ADDRESS")]),
       Call.deployed genesis] ∧
    ((migrate dotenv env fw w).2.calls.countP Call.isDeploy = 1 ∧
     (migrate dotenv env fw w).2.calls.countP Call.isDeployed = 1) ∧
    (deployOptions (dotenv env)).keys = ["from"] := by
  obtain ⟨v, hv⟩ := hdeploy
  have hcalls := migrate_calls_of_deploy_ok dotenv env fw w v hv
  refine ⟨hcalls, ?_, rfl⟩
  rw [hcalls]
  exact ⟨rfl, rfl⟩

/-- Witness of C1: the migration run in `sampleEnv` against `okFramework`. -/
theorem migration_call_trace_witness :
    (∃ v, (okFramework.deploy genesis (deployOptions (id sampleEnv)) 0).1 = Except.ok v) ∧
    (migrate id sampleEnv okFramework 0).2.calls =
      [Call.deploy genesis
          (JSValue.obj [("from", envLookup (id sampleEnv) "DEPLOY_WALLET_ADDRESS")]),
       Call.deployed genesis] ∧
    ((migrate id sampleEnv okFramework 0).2.calls.countP Call.isDeploy = 1 ∧
     (migrate id sampleEnv okFramework 0).2.calls.countP Call.isDeployed = 1) ∧
    (deployOptions (id sampleEnv)).keys = ["from"] :=
  ⟨⟨JSValue.undefined, rfl⟩,
   migration_call_trace id sampleEnv okFramework 0 ⟨JSValue.undefined, rfl⟩⟩


/-- A migration run makes either the deploy call alone or both calls. -/
theorem migrate_calls_cases {σ : Type} (dotenv : Env → Env) (env : Env)
    (fw : Framework σ) (w : σ) :
    (migrate dotenv env fw w).2.calls = [Call.deploy genesis (deployOptions (dotenv env))] ∨
    (migrate dotenv env fw w).2.calls =
      [Call.deploy genesis (deployOptions (dotenv env)), Call.deployed genesis] := by
  rw [migrate_eq]
  cases (fw.deploy genesis (deployOptions (dotenv env)) w).1 with
  | error e => exact Or.inl rfl
  | ok v =>
    right
    cases (fw.deployed genesis (afterDeploy dotenv env fw w)).1 <;> rfl

/-! ## Configuration: compiler -/

/-- C4: for every environment, `compilers.solc` of the resolved configuration
has version "0.8.16" and `settings.optimizer` equal to the object with enabled
true and runs 200; `compilers` is one top-level field of the configuration, and
no entry of `networks` has a property that carries compiler settings. -/
theorem compiler_settings_shared (dotenv : Env → Env) (env : Env) :
    (((resolvedConfig dotenv env).get "compilers").get "solc").get "version" =
      JSValue.str "0.8.16" ∧
    ((((resolvedConfig dotenv env).get "compilers").get "solc").get "settings").get "optimizer" =
      JSValue.obj [("enabled", JSValue.bool true), ("runs", JSValue.num 200)] ∧
    (resolvedConfig dotenv env).keys.count "compilers" = 1 ∧
    ∀ entry ∈ (networks dotenv env).values, ∀ k ∈ compilerKeys, entry.hasKey k = false := by
  refine ⟨rfl, rfl, rfl, ?_⟩
  intro entry hentry k hk
  have hall : ((networks dotenv env).values.all fun v =>
      compilerKeys.all fun k => !v.hasKey k) = true := rfl
  rw [List.all_eq_true] at hall
  have hrow := hall entry hentry
  rw [List.all_eq_true] at hrow
  simpa using hrow k hk

/-! ## Wallet address -/

/-- C5: for every environment, the `from` field of the `fantom` entry and the
`from` option the migration passes to `deployer.deploy` both equal the raw
result of looking DEPLOY_WALLET_ADDRESS up in the environment (as it stands
when the variable is read, after dotenv has run); when the variable is absent
both are `undefined`, no default address is substituted. -/
theorem wallet_address_is_raw_lookup {σ : Type} (dotenv : Env → Env) (env : Env)
    (fw : Framework σ) (w : σ) :
    (((networks dotenv env).get "fantom").get "from" =
        envLookup (dotenv env) "DEPLOY_WALLET_ADDRESS" ∧
      passedFrom (migrate dotenv env fw w).2.calls =
        [envLookup (dotenv env) "DEPLOY_WALLET_ADDRESS"]) ∧
    (dotenv env "DEPLOY_WALLET_ADDRESS" = none →
      ((networks dotenv env).get "fantom").get "from" = JSValue.undefined ∧
      passedFrom (migrate dotenv env fw w).2.calls = [JSValue.undefined]) := by
  have hfrom : ((networks dotenv env).get "fantom").get "from" =
      envLookup (dotenv env) "DEPLOY_WALLET_ADDRESS" := rfl
  have hpassed : passedFrom (migrate dotenv env fw w).2.calls =
      [envLookup (dotenv env) "DEPLOY_WALLET_ADDRESS"] := by
    rcases migrate_calls_cases dotenv env fw w with h | h <;> rw [h] <;> rfl
  refine ⟨⟨hfrom, hpassed⟩, ?_⟩
  intro habsent
  have hundef : envLookup (dotenv env) "DEPLOY_WALLET_ADDRESS" = JSValue.undefined := by
    simp only [envLookup, habsent]
  rw [hfrom, hpassed, hundef]
  exact ⟨rfl, rfl⟩

/-- Witness of C5: the empty environment against `okFramework`. -/
theorem wallet_address_is_raw_lookup_witness :
    id emptyEnv "DEPLOY_WALLET_ADDRESS" = none ∧
    ((networks id emptyEnv).get "fantom").get "from" = JSValue.undefined ∧
    passedFrom (migrate id emptyEnv okFramework 0).2.calls = [JSValue.undefined] :=
  ⟨rfl, (wallet_address_is_raw_lookup id emptyEnv okFramework 0).2 rfl⟩

/-! ## Migration: failures -/

/-- C6: if `deploy` fails with `e`, the migration function fails with exactly
`e`, after exactly one deploy call and without calling `deployed()`; if `deploy`
succeeds and `deployed()` fails with `e`, the migration function fails with
exactly `e` after exactly one deploy call; and the migration function succeeds
only if both operations succeeded. -/
theorem migration_propagates_failure {σ : Type} (dotenv : Env → Env) (env : Env)
    (fw : Framework σ) (w : σ) :
    (∀ e, (fw.deploy genesis (deployOptions (dotenv env)) w).1 = Except.error e →
      (migrate dotenv env fw w).1 = Except.error e ∧
      (migrate dotenv env fw w).2.calls = [Call.deploy genesis (deployOptions (dotenv env))] ∧
      (migrate dotenv env fw w).2.calls.countP Call.isDeploy = 1 ∧
      (migrate dotenv env fw w).2.calls.countP Call.isDeployed = 0) ∧
    (∀ v e, (fw.deploy genesis (deployOptions (dotenv env)) w).1 = Except.ok v →
      (fw.deployed genesis (afterDeploy dotenv env fw w)).1 = Except.error e →
      (migrate dotenv env fw w).1 = Except.error e ∧
      (migrate dotenv env fw w).2.calls =
        [Call.deploy genesis (deployOptions (dotenv env)), Call.deployed genesis] ∧
      (migrate dotenv env fw w).2.calls.countP Call.isDeploy = 1) ∧
    (∀ r, (migrate dotenv env fw w).1 = Except.ok r →
      (∃ v, (fw.deploy genesis (deployOptions (dotenv env)) w).1 = Except.ok v) ∧
      (∃ i, (fw.deployed genesis (afterDeploy dotenv env fw w)).1 = Except.ok i)) := by
  refine ⟨?_, ?_, ?_⟩
  · intro e he
    rw [migrate_eq]
    simp only [he]
    refine ⟨?_, ?_, ?_, ?_⟩ <;> trivial
  · intro v e hv he
    rw [migrate_eq]
    simp only [hv, he]
    refine ⟨?_, ?_, ?_⟩ <;> trivial
  · intro r hr
    rw [migrate_eq] at hr
    cases hd : (fw.deploy genesis (deployOptions (dotenv env)) w).1 with
    | error e => simp only [hd] at hr; cases hr
    | ok v =>
      cases hi : (fw.deployed genesis (afterDeploy dotenv env fw w)).1 with
      | error e => simp only [hd, hi] at hr; cases hr
      | ok i => exact ⟨⟨v, rfl⟩, ⟨i, rfl⟩⟩

/-- Witness of C6: a framework whose `deploy` throws, and one whose `deployed`
throws, each run in `sampleEnv`. -/
theorem migration_propagates_failure_witness :
    (((deployFails (JSValue.str "insufficient funds")).deploy genesis
        (deployOptions (id sampleEnv)) 0).1 = Except.error (JSValue.str "insufficient funds") ∧
      ((deployedFails (JSValue.str "network unreachable")).deployed genesis
        (afterDeploy id sampleEnv (deployedFails (JSValue.str "network unreachable")) 0)).1 =
        Except.error (JSValue.str "network unreachable")) ∧
    ((migrate id sampleEnv (deployFails (JSValue.str "insufficient funds")) 0).1 =
        Except.error (JSValue.str "insufficient funds") ∧
      (migrate id sampleEnv (deployFails (JSValue.str "insufficient funds")) 0).2.calls =
        [Call.deploy genesis (deployOptions (id sampleEnv))] ∧
      (migrate id sampleEnv (deployFails (JSValue.str "insufficient funds")) 0).2.calls.countP
        Call.isDeploy = 1 ∧
      (migrate id sampleEnv (deployFails (JSValue.str "insufficient funds")) 0).2.calls.countP
        Call.isDeployed = 0) ∧
    ((migrate id sampleEnv (deployedFails (JSValue.str "network unreachable")) 0).1 =
        Except.error (JSValue.str "network unreachable") ∧
      (migrate id sampleEnv (deployedFails (JSValue.str "network unreachable")) 0).2.calls =
        [Call.deploy genesis (deployOptions (id sampleEnv)), Call.deployed genesis] ∧
      (migrate id sampleEnv (deployedFails (JSValue.str "network unreachable")) 0).2.calls.countP
        Call.isDeploy = 1) :=
  ⟨⟨rfl, rfl⟩,
   (migration_propagates_failure id sampleEnv
      (deployFails (JSValue.str "insufficient funds")) 0).1 _ rfl,
   (migration_propagates_failure id sampleEnv
      (deployedFails (JSValue.str "network unreachable")) 0).2.1 JSValue.undefined _ rfl rfl⟩

/-! ## Configuration: shape of the networks mapping -/

/-- C7, as stated, fails in the empty environment: it is not the case that both
the `development` and the `fantom` entry specify connection parameters, `gas`,
`confirmations` and `skipDryRun` (the `development` entry has no
`confirmations`). -/
theorem network_entries_not_all_fields :
    ¬ ∀ name ∈ ["development", "fantom"],
        ((networks id emptyEnv).get name).specifiesConnection = true ∧
        ((networks id emptyEnv).get name).hasKey "gas" = true ∧
        ((networks id emptyEnv).get name).hasKey "confirmations" = true ∧
        ((networks id emptyEnv).get name).hasKey "skipDryRun" = true := by
  intro h
  have hdev := (h "development" (List.mem_cons_self _ _)).2.2.1
  have hno : ((networks id emptyEnv).get "development").hasKey "confirmations" = false := rfl
  rw [hno] at hdev
  cases hdev

/-- C7, amended: for every environment, both the `development` and the `fantom`
entry specify connection parameters and the dry-run skip flag `skipDryRun`
(true); `development` specifies the gas limit `gas` (5500000) and no
`confirmations`; `fantom` specifies `confirmations` (2) and no `gas`. -/
theorem network_entries_fields (dotenv : Env → Env) (env : Env) :
    (∀ name ∈ ["development", "fantom"],
        ((networks dotenv env).get name).specifiesConnection = true ∧
        ((networks dotenv env).get name).get "skipDryRun" = JSValue.bool true) ∧
    (((networks dotenv env).get "development").get "gas" = JSValue.num 5500000 ∧
      ((networks dotenv env).get "development").hasKey "confirmations" = false) ∧
    (((networks dotenv env).get "fantom").get "confirmations" = JSValue.num 2 ∧
      ((networks dotenv env).get "fantom").hasKey "gas" = false) := by
  refine ⟨?_, ⟨rfl, rfl⟩, ⟨rfl, rfl⟩⟩
  intro name hname
  simp only [List.mem_cons, List.mem_singleton, List.not_mem_nil, or_false] at hname
  rcases hname with rfl | rfl
  · exact ⟨rfl, rfl⟩
  · exact ⟨rfl, rfl⟩

/-- C8, on the code: for every environment the `networks` object has three
keys, "development", "fantom" and "on", and the value under "on" is the boolean
true, which is not a record and carries neither a network identifier nor
connection parameters. -/
theorem networks_has_stray_on (dotenv : Env → Env) (env : Env) :
    (networks dotenv env).keys = ["development", "fantom", "on"] ∧
    (networks dotenv env).get "on" = JSValue.bool true ∧
    ((networks dotenv env).get "on").isObject = false ∧
    ((networks dotenv env).get "on").hasKey "network_id" = false ∧
    ((networks dotenv env).get "on").specifiesConnection = false ∧
    (networks dotenv env).keys ≠ ["development", "fantom"] := by
  refine ⟨rfl, rfl, rfl, rfl, rfl, ?_⟩
  intro h
  have hlen := congrArg List.length h
  have hthree : (networks dotenv env).keys.length = 3 := rfl
  rw [hthree] at hlen
  cases hlen

/-! ## Configuration: effects and the wallet provider -/

/-- Invoking `networks.fantom.provider()` evaluates `new HDWalletProvider(m, url,
0, i)` where `m` is the value of METAMASK_MNENONIC, `url` is the Fantom testnet
endpoint and `i` is the value of DEPLOY_WALLET_ADDRESS_INDEX. -/
theorem provider_call (ctors : Constructors) (dotenv : Env → Env) (env : Env) (p : Proc) :
    callFunction ctors (fantomProvider dotenv env) [] p =
      some (newObject ctors "HDWalletProvider"
              [envLookup (dotenv env) "METAMASK_MNENONIC",
               JSValue.str "https://rpc.ankr.com/fantom_testnet",
               JSValue.num 0,
               envLookup (dotenv env) "DEPLOY_WALLET_ADDRESS_INDEX"],
            ⟨p.env, p.log ++ [Effect.construct "HDWalletProvider"
              [envLookup (dotenv env) "METAMASK_MNENONIC",
               JSValue.str "https://rpc.ankr.com/fantom_testnet",
               JSValue.num 0,
               envLookup (dotenv env) "DEPLOY_WALLET_ADDRESS_INDEX"]]⟩) := by
  rfl

/-- C9, as stated, fails.  With a `.env` file that sets DEPLOY_WALLET_ADDRESS and
an empty starting environment, resolving the configuration is not free of
effects other than environment reads: it leaves the environment changed and its
trace has calls that are not reads.  And in the empty environment an invocation
of `provider` does not yield a provider: the constructor throws. -/
theorem resolving_not_only_env_reads :
    ¬ (resolvedEnv (dotenvFile [("DEPLOY_WALLET_ADDRESS", "0xabc")]) emptyEnv = emptyEnv ∧
        ∀ e ∈ resolveTrace (dotenvFile [("DEPLOY_WALLET_ADDRESS", "0xabc")]) emptyEnv,
          e.isEnvRead = true) ∧
    ¬ ∃ made p, callFunction walletProviderCtor (fantomProvider id emptyEnv) []
        (Proc.start emptyEnv) = some (Except.ok made, p) := by
  constructor
  · rintro ⟨henv, -⟩
    have hkey := congrFun henv "DEPLOY_WALLET_ADDRESS"
    have hset : resolvedEnv (dotenvFile [("DEPLOY_WALLET_ADDRESS", "0xabc")]) emptyEnv
        "DEPLOY_WALLET_ADDRESS" = some "0xabc" := rfl
    rw [hset] at hkey
    cases hkey
  · rintro ⟨made, p, h⟩
    have hthrow : callFunction walletProviderCtor (fantomProvider id emptyEnv) []
        (Proc.start emptyEnv) =
        some (Except.error (JSValue.str "configuration error: mnemonic missing"),
          ⟨emptyEnv, [Effect.construct "HDWalletProvider"
            [JSValue.undefined, JSValue.str "https://rpc.ankr.com/fantom_testnet",
             JSValue.num 0, JSValue.undefined]]⟩) := rfl
    rw [hthrow] at h
    cases h

/-- C9, amended: for every environment, resolving the configuration makes
exactly these calls, in order: require dotenv, dotenv's config (after which the
environment is the one dotenv leaves), the reads of the three variables, require
of the wallet-provider module; no call is a construction.  The `provider` field
of `fantom` is a function of no parameters; each invocation of it, in any
process state, calls the HDWalletProvider constructor exactly once, on the
mnemonic, the endpoint, 0 and the index, and changes nothing else; it returns
the new provider when the constructor returns and throws the constructor's
error when it throws. -/
theorem resolving_constructs_no_provider (dotenv : Env → Env) (env : Env) :
    resolveTrace dotenv env =
      [Effect.requireModule "dotenv", Effect.dotenvConfig,
       Effect.envRead "METAMASK_MNENONIC", Effect.envRead "DEPLOY_WALLET_ADDRESS",
       Effect.envRead "DEPLOY_WALLET_ADDRESS_INDEX",
       Effect.requireModule "@truffle/hdwallet-provider"] ∧
    resolvedEnv dotenv env = dotenv env ∧
    (∀ e ∈ resolveTrace dotenv env, e.isConstruct = false) ∧
    (fantomProvider dotenv env).isFunction = true ∧
    (fantomProvider dotenv env).arity = some 0 ∧
    ∀ (ctors : Constructors) (p : Proc),
      (ctors "HDWalletProvider"
          [envLookup (dotenv env) "METAMASK_MNENONIC",
           JSValue.str "https://rpc.ankr.com/fantom_testnet",
           JSValue.num 0,
           envLookup (dotenv env) "DEPLOY_WALLET_ADDRESS_INDEX"] = none →
        callFunction ctors (fantomProvider dotenv env) [] p =
          some (Except.ok (JSValue.created "HDWalletProvider"
                  [envLookup (dotenv env) "METAMASK_MNENONIC",
                   JSValue.str "https://rpc.ankr.com/fantom_testnet",
                   JSValue.num 0,
                   envLookup (dotenv env) "DEPLOY_WALLET_ADDRESS_INDEX"]),
                ⟨p.env, p.log ++ [Effect.construct "HDWalletProvider"
                  [envLookup (dotenv env) "METAMASK_MNENONIC",
                   JSValue.str "https://rpc.ankr.com/fantom_testnet",
                   JSValue.num 0,
                   envLookup (dotenv env) "DEPLOY_WALLET_ADDRESS_INDEX"]]⟩)) ∧
      (∀ e, ctors "HDWalletProvider"
          [envLookup (dotenv env) "METAMASK_MNENONIC",
           JSValue.str "https://rpc.ankr.com/fantom_testnet",
           JSValue.num 0,
           envLookup (dotenv env) "DEPLOY_WALLET_ADDRESS_INDEX"] = some e →
        callFunction ctors (fantomProvider dotenv env) [] p =
          some (Except.error e,
                ⟨p.env, p.log ++ [Effect.construct "HDWalletProvider"
                  [envLookup (dotenv env) "METAMASK_MNENONIC",
                   JSValue.str "https://rpc.ankr.com/fantom_testnet",
                   JSValue.num 0,
                   envLookup (dotenv env) "DEPLOY_WALLET_ADDRESS_INDEX"]]⟩)) := by
  have htrace : resolveTrace dotenv env =
      [Effect.requireModule "dotenv", Effect.dotenvConfig,
       Effect.envRead "METAMASK_MNENONIC", Effect.envRead "DEPLOY_WALLET_ADDRESS",
       Effect.envRead "DEPLOY_WALLET_ADDRESS_INDEX",
       Effect.requireModule "@truffle/hdwallet-provider"] := rfl
  refine ⟨htrace, rfl, ?_, rfl, rfl, ?_⟩
  · intro e he
    rw [htrace] at he
    simp only [List.mem_cons, List.mem_singleton, List.not_mem_nil, or_false] at he
    rcases he with rfl | rfl | rfl | rfl | rfl | rfl <;> rfl
  · intro ctors p
    constructor
    · intro hret
      rw [provider_call, newObject, hret]
    · intro e hthrow
      rw [provider_call, newObject, hthrow]

/-- Witness of C9, amended: with `walletProviderCtor`, the constructor returns in
`sampleEnv`, where the invocation yields the new provider, and throws in the
empty environment, where the invocation throws the same error. -/
theorem resolving_constructs_no_provider_witness :
    (walletProviderCtor "HDWalletProvider"
        [envLookup (id sampleEnv) "METAMASK_MNENONIC",
         JSValue.str "https://rpc.ankr.com/fantom_testnet",
         JSValue.num 0,
         envLookup (id sampleEnv) "DEPLOY_WALLET_ADDRESS_INDEX"] = none ∧
      callFunction walletProviderCtor (fantomProvider id sampleEnv) [] (Proc.start sampleEnv) =
        some (Except.ok (JSValue.created "HDWalletProvider"
                [envLookup (id sampleEnv) "METAMASK_MNENONIC",
                 JSValue.str "https://rpc.ankr.com/fantom_testnet",
                 JSValue.num 0,
                 envLookup (id sampleEnv) "DEPLOY_WALLET_ADDRESS_INDEX"]),
              ⟨(Proc.start sampleEnv).env, (Proc.start sampleEnv).log ++
                [Effect.construct "HDWalletProvider"
                  [envLookup (id sampleEnv) "METAMASK_MNENONIC",
                   JSValue.str "https://rpc.ankr.com/fantom_testnet",
                   JSValue.num 0,
                   envLookup (id sampleEnv) "DEPLOY_WALLET_ADDRESS_INDEX"]]⟩)) ∧
    (walletProviderCtor "HDWalletProvider"
        [envLookup (id emptyEnv) "METAMASK_MNENONIC",
         JSValue.str "https://rpc.ankr.com/fantom_testnet",
         JSValue.num 0,
         envLookup (id emptyEnv) "DEPLOY_WALLET_ADDRESS_INDEX"] =
        some (JSValue.str "configuration error: mnemonic missing") ∧
      callFunction walletProviderCtor (fantomProvider id emptyEnv) [] (Proc.start emptyEnv) =
        some (Except.error (JSValue.str "configuration error: mnemonic missing"),
              ⟨(Proc.start emptyEnv).env, (Proc.start emptyEnv).log ++
                [Effect.construct "HDWalletProvider"
                  [envLookup (id emptyEnv) "METAMASK_MNENONIC",
                   JSValue.str "https://rpc.ankr.com/fantom_testnet",
                   JSValue.num 0,
                   envLookup (id emptyEnv) "DEPLOY_WALLET_ADDRESS_INDEX"]]⟩)) :=
  ⟨⟨rfl, ((resolving_constructs_no_provider id sampleEnv).2.2.2.2.2
      walletProviderCtor (Proc.start sampleEnv)).1 rfl⟩,
   ⟨rfl, ((resolving_constructs_no_provider id emptyEnv).2.2.2.2.2
      walletProviderCtor (Proc.start emptyEnv)).2 _ rfl⟩⟩

/-- C10, on the code: in `sampleEnv`, where DEPLOY_WALLET_ADDRESS_INDEX is "3",
invoking `networks.fantom.provider()` evaluates `new HDWalletProvider` with the
mnemonic, the endpoint "https://rpc.ankr.com/fantom_testnet", the literal number
0 as third positional argument and the environment's index "3" as fourth,
whatever the constructor then does: the third argument is not the environment's
wallet index. -/
theorem provider_passes_index_fourth (ctors : Constructors) :
    envLookup sampleEnv "DEPLOY_WALLET_ADDRESS_INDEX" = JSValue.str "3" ∧
    callFunction ctors (fantomProvider id sampleEnv) [] (Proc.start sampleEnv) =
      some (newObject ctors "HDWalletProvider"
              [JSValue.str "test test test test test test test test test test test junk",
               JSValue.str "https://rpc.ankr.com/fantom_testnet",
               JSValue.num 0,
               JSValue.str "3"],
            ⟨sampleEnv, [Effect.construct "HDWalletProvider"
              [JSValue.str "test test test test test test test test test test test junk",
               JSValue.str "https://rpc.ankr.com/fantom_testnet",
               JSValue.num 0,
               JSValue.str "3"]]⟩) ∧
    newObject walletProviderCtor "HDWalletProvider"
        [JSValue.str "test test test test test test test test test test test junk",
         JSValue.str "https://rpc.ankr.com/fantom_testnet",
         JSValue.num 0,
         JSValue.str "3"] =
      Except.ok (JSValue.created "HDWalletProvider"
        [JSValue.str "test test test test test test test test test test test junk",
         JSValue.str "https://rpc.ankr.com/fantom_testnet",
         JSValue.num 0,
         JSValue.str "3"]) ∧
    JSValue.num 0 ≠ envLookup sampleEnv "DEPLOY_WALLET_ADDRESS_INDEX" := by
  refine ⟨rfl, rfl, rfl, ?_⟩
  intro h
  cases h

end Bulletproof
